import Mathlib

/-!
Verification of the German public-holiday library (`src/holidays.rs`,
`src/regions.rs`) against its specification.

Shallow embedding conventions:

* A `chrono::NaiveDate` is embedded as its day number (an `Int`, days since
  1970-01-01).  `chrono` orders and compares `NaiveDate`s chronologically, so
  equality and `≤` on day numbers coincide with the Rust behaviour; the day
  number of year/month/day is `civilToDays`, the standard days-from-civil
  computation, and `chrono`'s representable range is `MIN_YEAR ..= MAX_YEAR`
  (`i32::MIN >> 13` to `i32::MAX >> 13`).
* `NaiveDate::from_ymd_opt` is embedded as `fromYmdOpt` (checks the range and
  month/day validity).  The panicking `NaiveDate::from_ymd` is
  `from_ymd_opt(..).expect(..)`: it panics exactly where `fromYmdOpt` is
  `none`; a function built on it is embedded with the panic represented as
  `none`, and the panic domain is exhibited separately.
* `Weekday::num_days_from_monday` is `numDaysFromMonday`: 1970-01-01 was a
  Thursday (index 3 from Monday), so the index of day number `d` is
  `(d + 3) % 7`.
* Rust `Vec<T>` becomes `List T`; `extend_from_slice`/`push` become `++`;
  `Iterator::find` becomes `List.find?`; `flat_map` over an `Option` becomes
  `List.filterMap`.  `sort_unstable_by_key` is a comparison sort by key whose
  order on equal keys is unspecified; it is embedded as `List.insertionSort`
  with the by-date relation.
-/

namespace HolidayDe

/-- Day-number embedding of `chrono::NaiveDate`: days since 1970-01-01. -/
abbrev NaiveDate := Int

/-- Smallest year representable by `chrono::NaiveDate` (`i32::MIN >> 13`). -/
def MIN_YEAR : Int := -262144

/-- Largest year representable by `chrono::NaiveDate` (`i32::MAX >> 13`). -/
def MAX_YEAR : Int := 262143

/-- Gregorian leap-year rule, as used by `chrono` for month lengths. -/
def isLeapYear (y : Int) : Bool :=
  y % 4 == 0 && (y % 100 != 0 || y % 400 == 0)

/-- Number of days of month `m` (1..12) in year `y`; 0 for an invalid month. -/
def daysInMonth (y : Int) (m : Nat) : Nat :=
  match m with
  | 1 => 31
  | 2 => if isLeapYear y then 29 else 28
  | 3 => 31
  | 4 => 30
  | 5 => 31
  | 6 => 30
  | 7 => 31
  | 8 => 31
  | 9 => 30
  | 10 => 31
  | 11 => 30
  | 12 => 31
  | _ => 0

/-- Day number (days since 1970-01-01) of a civil year/month/day, the
standard days-from-civil computation with floor division. -/
def civilToDays (y : Int) (m d : Nat) : Int :=
  let y' : Int := if m ≤ 2 then y - 1 else y
  let mp : Nat := if 3 ≤ m then m - 3 else m + 9
  let doy : Nat := (153 * mp + 2) / 5 + (d - 1)
  365 * y' + y'.fdiv 4 - y'.fdiv 100 + y'.fdiv 400 + (doy : Int) - 719468

/-- Embeds `chrono::NaiveDate::from_ymd_opt`: `some` of the day number when
year, month and day form a valid representable date, else `none`. -/
def fromYmdOpt (y : Int) (m d : Nat) : Option NaiveDate :=
  if MIN_YEAR ≤ y ∧ y ≤ MAX_YEAR ∧ 1 ≤ m ∧ m ≤ 12 ∧ 1 ≤ d ∧ d ≤ daysInMonth y m
  then some (civilToDays y m d)
  else none

/-- Embeds `Weekday::num_days_from_monday` of a day number: Monday = 0 ..
Sunday = 6.  Day 0 (1970-01-01) was a Thursday, index 3. -/
def numDaysFromMonday (d : Int) : Int :=
  (d + 3) % 7

/-- Modelled from the spec: the Easter Calculator (the `computus` crate, a
dependency whose source is not under `src/`) "must reproduce the standard
Gregorian computus algorithm exactly"; this is the standard anonymous
Gregorian computus returning Easter Sunday's (month, day) for the given
year.  The crate's `Result` is always `Ok` on the years any claim
evaluates, so it is modelled as total. -/
def computusGregorian (year : Int) : Nat × Nat :=
  let a := year % 19
  let b := year / 100
  let c := year % 100
  let d := b / 4
  let e := b % 4
  let f := (b + 8) / 25
  let g := (b - f + 1) / 3
  let h := (19 * a + b - d - g + 15) % 30
  let i := c / 4
  let k := c % 4
  let l := (32 + 2 * e + 2 * i - h - k) % 7
  let m := (a + 11 * h + 22 * l) / 451
  let month := (h + l - 7 * m + 114) / 31
  let day := (h + l - 7 * m + 114) % 31 + 1
  (month.toNat, day.toNat)

/-- Embeds `relative_to_easter_sunday` (src/holidays.rs): Easter Sunday's
day number plus an offset in days; `none` when the Easter date is not
representable.  The final `+ Duration::days(offset)` is plain addition of
day numbers (for the catalogue's offsets it never leaves the representable
range when the Easter date itself is representable). -/
def relative_to_easter_sunday (year : Int) (days_offset : Int) : Option NaiveDate :=
  let es := computusGregorian year
  match fromYmdOpt year es.1 es.2 with
  | none => none
  | some date => some (date + days_offset)

/-- Embeds the helper `fn date(year, month, day)` of src/holidays.rs,
which is `NaiveDate::from_ymd_opt`. -/
def mkDate (year : Int) (month day : Nat) : Option NaiveDate :=
  fromYmdOpt year month day

/-- Embeds `bus_und_bettag` (src/holidays.rs).  The source builds the
reference date with the panicking `NaiveDate::from_ymd(year, 11, 23)`; the
panic (year outside the representable range) is represented here by `none`.
For representable years the behaviour is exactly the source's arithmetic. -/
def bus_und_bettag (year : Int) : Option NaiveDate :=
  match fromYmdOpt year 11 23 with
  | none => none
  | some reference_date =>
    let weekday_ordinal : Int := numDaysFromMonday reference_date
    let duration_to_previous_wednesday : Int :=
      if weekday_ordinal < 3 then -(weekday_ordinal + 5) else 2 - weekday_ordinal
    some (reference_date + duration_to_previous_wednesday)

/-- Embeds `enum GermanHoliday` (src/holidays.rs), in source order. -/
inductive GermanHoliday where
  | Neujahr
  | HeiligeDreiKoenige
  | Frauentag
  | Faschingsdienstag
  | Aschermittwoch
  | Gruendonnerstag
  | Karfreitag
  | Ostersonntag
  | Ostermontag
  | ErsterMai
  | ChristiHimmelfahrt
  | Pfingstsonntag
  | Pfingstmontag
  | Fronleichnam
  | AugsburgerFriedensfest
  | MariaeHimmelfahrt
  | Weltkindertag
  | TagDerDeutschenEinheit
  | Reformationstag
  | Allerheiligen
  | BussUndBettag
  | Heiligabend
  | ErsterWeihnachtsfeiertag
  | ZweiterWeihnachtsfeiertag
  | Silvester
deriving DecidableEq, Repr, Fintype

open GermanHoliday

/-- Embeds `GermanHoliday::date` (src/holidays.rs): the holiday's date in
the given year, `None` if it cannot be calculated. -/
def GermanHoliday.date (h : GermanHoliday) (year : Int) : Option NaiveDate :=
  match h with
  | Neujahr => mkDate year 1 1
  | HeiligeDreiKoenige => mkDate year 1 6
  | Frauentag => mkDate year 3 8
  | Faschingsdienstag => relative_to_easter_sunday year (-47)
  | Aschermittwoch => relative_to_easter_sunday year (-46)
  | Gruendonnerstag => relative_to_easter_sunday year (-3)
  | Karfreitag => relative_to_easter_sunday year (-2)
  | Ostersonntag => relative_to_easter_sunday year 0
  | Ostermontag => relative_to_easter_sunday year 1
  | ErsterMai => mkDate year 5 1
  | ChristiHimmelfahrt => relative_to_easter_sunday year 39
  | Pfingstsonntag => relative_to_easter_sunday year 49
  | Pfingstmontag => relative_to_easter_sunday year 50
  | Fronleichnam => relative_to_easter_sunday year 60
  | AugsburgerFriedensfest => mkDate year 8 8
  | MariaeHimmelfahrt => mkDate year 8 15
  | Weltkindertag => mkDate year 9 20
  | TagDerDeutschenEinheit => mkDate year 10 3
  | Reformationstag => mkDate year 10 31
  | Allerheiligen => mkDate year 11 1
  | BussUndBettag => bus_und_bettag year
  | Heiligabend => mkDate year 12 24
  | ErsterWeihnachtsfeiertag => mkDate year 12 25
  | ZweiterWeihnachtsfeiertag => mkDate year 12 26
  | Silvester => mkDate year 12 31

/-- Embeds `enum GermanRegion` (src/regions.rs), in source order. -/
inductive GermanRegion where
  | BadenWuerttemberg
  | Bayern
  | Berlin
  | Brandenburg
  | Bremen
  | Hamburg
  | Hessen
  | MechlenburgVorpommern
  | Niedersachsen
  | NordrheinWestfalen
  | RheinlandPfalz
  | Saarland
  | Sachsen
  | SachsenAnhalt
  | SchleswigHolstein
  | Thueringen
deriving DecidableEq, Repr, Fintype

open GermanRegion

/-- Embeds `BUNDESWEITE_FEIERTAGE` (src/regions.rs), the nine nationwide
holidays, in source order. -/
def BUNDESWEITE_FEIERTAGE : List GermanHoliday :=
  [Neujahr, Karfreitag, Ostermontag, ErsterMai, ChristiHimmelfahrt,
   Pfingstmontag, TagDerDeutschenEinheit, ErsterWeihnachtsfeiertag,
   ZweiterWeihnachtsfeiertag]

/-- Embeds `GermanRegion::region_specific_holidays` (src/regions.rs). -/
def GermanRegion.region_specific_holidays (r : GermanRegion) (year : Int) :
    List GermanHoliday :=
  match r with
  | BadenWuerttemberg => [HeiligeDreiKoenige, Fronleichnam, Allerheiligen]
  | Bayern => [HeiligeDreiKoenige, Fronleichnam, MariaeHimmelfahrt, Allerheiligen]
  | Berlin => if 2019 ≤ year then [Frauentag] else []
  | Brandenburg => [Reformationstag]
  | Bremen => if 2017 ≤ year then [Reformationstag] else []
  | Hamburg => if 2017 ≤ year then [Reformationstag] else []
  | Hessen => [Fronleichnam]
  | MechlenburgVorpommern =>
      if 2023 ≤ year then [Frauentag, Reformationstag] else [Reformationstag]
  | Niedersachsen => if 2017 ≤ year then [Reformationstag] else []
  | NordrheinWestfalen => [Fronleichnam, Allerheiligen]
  | RheinlandPfalz => [Fronleichnam, Allerheiligen]
  | Saarland => [Fronleichnam, MariaeHimmelfahrt, Allerheiligen]
  | Sachsen => [Reformationstag, BussUndBettag]
  | SachsenAnhalt => [HeiligeDreiKoenige, Reformationstag]
  | SchleswigHolstein => if 2017 ≤ year then [Reformationstag] else []
  | Thueringen =>
      if 2019 ≤ year then [Weltkindertag, Reformationstag] else [Reformationstag]

/-- Embeds `GermanRegion::holidays_in_year` (src/regions.rs): empty before
1995, otherwise the nationwide holidays followed by the region-specific
ones, with `Reformationstag` pushed once for the one-off year 2017 when not
already present. -/
def GermanRegion.holidays_in_year (r : GermanRegion) (year : Int) :
    List GermanHoliday :=
  if year < 1995 then []
  else if year == 2017 &&
      !((BUNDESWEITE_FEIERTAGE ++ r.region_specific_holidays year).contains
        Reformationstag) then
    (BUNDESWEITE_FEIERTAGE ++ r.region_specific_holidays year) ++ [Reformationstag]
  else BUNDESWEITE_FEIERTAGE ++ r.region_specific_holidays year

/-- Order on (date, holiday) pairs by date, used for the by-key sort in
`holiday_dates_in_year`. -/
def byDateLe (a b : NaiveDate × GermanHoliday) : Prop := a.1 ≤ b.1

/-- Strict by-date order, used to state strict increase of a dates list. -/
def byDateLt (a b : NaiveDate × GermanHoliday) : Prop := a.1 < b.1

instance : DecidableRel byDateLe :=
  fun a b => inferInstanceAs (Decidable (a.1 ≤ b.1))

instance : DecidableRel byDateLt :=
  fun a b => inferInstanceAs (Decidable (a.1 < b.1))

instance : IsTotal (NaiveDate × GermanHoliday) byDateLe :=
  ⟨fun a b => le_total a.1 b.1⟩

instance : IsTrans (NaiveDate × GermanHoliday) byDateLe :=
  ⟨fun _ _ _ h1 h2 => le_trans h1 h2⟩

/-- Embeds `GermanRegion::holiday_dates_in_year` (src/regions.rs): derive a
date for each applicable holiday, drop failures, sort by date.  The
source's `sort_unstable_by_key` leaves the order of equal keys
unspecified; the sort-by-key is embedded as an insertion sort by date. -/
def GermanRegion.holiday_dates_in_year (r : GermanRegion) (year : Int) :
    List (NaiveDate × GermanHoliday) :=
  List.insertionSort byDateLe
    ((r.holidays_in_year year).filterMap
      (fun holiday => (holiday.date year).map (fun date => (date, holiday))))

/-- A calendar date as passed to the point queries; a valid `NaiveDate`
carries exactly this data (`date.year()` etc.). -/
structure CivilDate where
  year : Int
  month : Nat
  day : Nat
deriving DecidableEq, Repr

/-- Embeds `GermanRegion::holiday_from_date` (src/regions.rs): the first
holiday of `holidays_in_year` of the date's year whose derived date equals
the given date. -/
def GermanRegion.holiday_from_date (r : GermanRegion) (d : CivilDate) :
    Option GermanHoliday :=
  (r.holidays_in_year d.year).find?
    (fun holiday => holiday.date d.year == some (civilToDays d.year d.month d.day))

/-- Embeds `GermanRegion::is_holiday` (src/regions.rs). -/
def GermanRegion.is_holiday (r : GermanRegion) (d : CivilDate) : Bool :=
  (r.holiday_from_date d).isSome

/-- Catalogue kinds that no region's applicability table ever lists
(claim C10's list). -/
def unobservedKinds : List GermanHoliday :=
  [Faschingsdienstag, Aschermittwoch, Gruendonnerstag, Ostersonntag,
   Pfingstsonntag, AugsburgerFriedensfest, Heiligabend, Silvester]

end HolidayDe

namespace HolidayDe

open GermanHoliday GermanRegion

/-! Theorems checking the claims of the specification. -/

/-- C1 (counterexample): the dates of `holiday_dates_in_year` are not
always strictly increasing.  In 2008 Easter Sunday fell on March 23, so
Christi Himmelfahrt (Easter + 39) and Erster Mai both fell on 2008-05-01;
the result for Berlin in 2008 therefore repeats a date. -/
theorem dates_2008_not_strictly_increasing :
    GermanHoliday.date ErsterMai 2008 = GermanHoliday.date ChristiHimmelfahrt 2008 ∧
    GermanHoliday.date ErsterMai 2008 = mkDate 2008 5 1 ∧
    ErsterMai ∈ Berlin.holidays_in_year 2008 ∧
    ChristiHimmelfahrt ∈ Berlin.holidays_in_year 2008 ∧
    ¬ List.Pairwise byDateLt (Berlin.holiday_dates_in_year 2008) := by
  decide

/-- C1 (amended): for every region and year the dates of
`holiday_dates_in_year` are sorted in non-decreasing order. -/
theorem holiday_dates_in_year_sorted (r : GermanRegion) (y : Int) :
    List.Sorted byDateLe (r.holiday_dates_in_year y) := by
  unfold GermanRegion.holiday_dates_in_year
  exact List.sorted_insertionSort byDateLe _

/-- C2: `bus_und_bettag` builds its reference date with the panicking
`NaiveDate::from_ymd(year, 11, 23)`.  At year 262144 (one past `MAX_YEAR`)
`from_ymd_opt` is `none`, so the source panics instead of returning
`None`; in this embedding the panic shows up as `none` from `fromYmdOpt`. -/
theorem bus_und_bettag_panics_out_of_range :
    fromYmdOpt 262144 11 23 = none ∧ bus_und_bettag 262144 = none := by
  decide

/-- C3: for every year whose November 23 is representable, the Buß- und
Bettag rule steps back `w + 5` days when the weekday-from-Monday index `w`
of Nov 23 is below 3 and `w - 2` days otherwise, always landing on a
Wednesday 1 to 7 days (inclusive) before Nov 23; concretely it yields
Nov 21 for 2018, Nov 20 for 2019, Nov 18 for 2020 and Nov 22 for 2023. -/
theorem bus_und_bettag_wednesday (y : Int)
    (h1 : MIN_YEAR ≤ y) (h2 : y ≤ MAX_YEAR) :
    (∃ d : Int, bus_und_bettag y = some d ∧
      numDaysFromMonday d = 2 ∧
      1 ≤ civilToDays y 11 23 - d ∧ civilToDays y 11 23 - d ≤ 7 ∧
      (numDaysFromMonday (civilToDays y 11 23) < 3 →
        d = civilToDays y 11 23 - (numDaysFromMonday (civilToDays y 11 23) + 5)) ∧
      (3 ≤ numDaysFromMonday (civilToDays y 11 23) →
        d = civilToDays y 11 23 - (numDaysFromMonday (civilToDays y 11 23) - 2))) ∧
    bus_und_bettag 2018 = mkDate 2018 11 21 ∧
    bus_und_bettag 2019 = mkDate 2019 11 20 ∧
    bus_und_bettag 2020 = mkDate 2020 11 18 ∧
    bus_und_bettag 2023 = mkDate 2023 11 22 := by
  refine ⟨?_, by decide, by decide, by decide, by decide⟩
  have hv : fromYmdOpt y 11 23 = some (civilToDays y 11 23) := by
    unfold fromYmdOpt
    rw [if_pos]
    refine ⟨h1, h2, by norm_num, by norm_num, by norm_num, ?_⟩
    simp [daysInMonth]
  unfold bus_und_bettag
  rw [hv]
  simp only [numDaysFromMonday]
  generalize civilToDays y 11 23 = ref
  have h0 : 0 ≤ (ref + 3) % 7 := Int.emod_nonneg _ (by norm_num)
  have h7 : (ref + 3) % 7 < 7 := Int.emod_lt_of_pos _ (by norm_num)
  split_ifs with hw
  · refine ⟨ref + -((ref + 3) % 7 + 5), rfl, ?_, ?_, ?_, ?_, ?_⟩ <;> omega
  · refine ⟨ref + (2 - (ref + 3) % 7), rfl, ?_, ?_, ?_, ?_, ?_⟩ <;> omega

/-- C3 witness at year 2018. -/
theorem bus_und_bettag_wednesday_witness :
    MIN_YEAR ≤ (2018 : Int) ∧ (2018 : Int) ≤ MAX_YEAR ∧
    ∃ d : Int, bus_und_bettag 2018 = some d ∧ numDaysFromMonday d = 2 := by
  refine ⟨by decide, by decide, ?_⟩
  obtain ⟨⟨d, hd, hwed, -⟩, -⟩ :=
    bus_und_bettag_wednesday 2018 (by decide) (by decide)
  exact ⟨d, hd, hwed⟩

/-- C4: for every region, years before 1995 yield the empty holiday
list. -/
theorem holidays_in_year_empty_before_1995 (r : GermanRegion) (y : Int)
    (h : y < 1995) : r.holidays_in_year y = [] := by
  unfold GermanRegion.holidays_in_year
  rw [if_pos h]

/-- C4 witness: Baden-Württemberg in 1994. -/
theorem holidays_in_year_empty_before_1995_witness :
    (1994 : Int) < 1995 ∧ BadenWuerttemberg.holidays_in_year 1994 = [] :=
  ⟨by decide, holidays_in_year_empty_before_1995 _ _ (by decide)⟩

/-- C5: from 1995 onward, every region's holiday list contains every
nationwide holiday of `BUNDESWEITE_FEIERTAGE`. -/
theorem national_holidays_subset (r : GermanRegion) (y : Int)
    (h : 1995 ≤ y) (k : GermanHoliday) (hk : k ∈ BUNDESWEITE_FEIERTAGE) :
    k ∈ r.holidays_in_year y := by
  unfold GermanRegion.holidays_in_year
  rw [if_neg (by omega)]
  split
  · exact List.mem_append_left _ (List.mem_append_left _ hk)
  · exact List.mem_append_left _ hk

/-- C5 witness: Neujahr in Berlin, 2000. -/
theorem national_holidays_subset_witness :
    1995 ≤ (2000 : Int) ∧ Neujahr ∈ BUNDESWEITE_FEIERTAGE ∧
    Neujahr ∈ Berlin.holidays_in_year 2000 :=
  ⟨by decide, by decide, national_holidays_subset _ _ (by decide) _ (by decide)⟩

/-- C6: in Berlin, 2018-03-08 is not a holiday, 2019-03-08 resolves to
Frauentag, and for every year from 1995 on Frauentag is in Berlin's
holiday list exactly when the year is at least 2019. -/
theorem frauentag_berlin_since_2019 :
    Berlin.is_holiday ⟨2018, 3, 8⟩ = false ∧
    Berlin.holiday_from_date ⟨2019, 3, 8⟩ = some Frauentag ∧
    ∀ y : Int, 1995 ≤ y →
      (Frauentag ∈ Berlin.holidays_in_year y ↔ 2019 ≤ y) := by
  refine ⟨by decide, by decide, fun y hy => ?_⟩
  have hn : ¬ y < 1995 := by omega
  by_cases h19 : 2019 ≤ y
  · have h2017 : ¬ y = 2017 := by omega
    simp [GermanRegion.holidays_in_year, GermanRegion.region_specific_holidays,
      hn, h19, h2017, BUNDESWEITE_FEIERTAGE]
  · by_cases h17 : y = 2017
    · subst h17
      decide
    · simp [GermanRegion.holidays_in_year, GermanRegion.region_specific_holidays,
        hn, h19, h17, BUNDESWEITE_FEIERTAGE]

/-- C6 witness for the year-quantified part, at year 2020. -/
theorem frauentag_berlin_since_2019_witness :
    1995 ≤ (2020 : Int) ∧
    (Frauentag ∈ Berlin.holidays_in_year 2020 ↔ 2019 ≤ (2020 : Int)) :=
  ⟨by decide, frauentag_berlin_since_2019.2.2 2020 (by decide)⟩

/-- C7: in 2017 every region's holiday list contains Reformationstag
exactly once, and in regions whose regular regional set excludes it
(Baden-Württemberg, Bayern, Berlin, Hessen) it is absent in 2016 and
2018. -/
theorem reformationstag_2017_once :
    (∀ r : GermanRegion,
      (r.holidays_in_year 2017).count Reformationstag = 1) ∧
    Reformationstag ∉ BadenWuerttemberg.holidays_in_year 2016 ∧
    Reformationstag ∉ BadenWuerttemberg.holidays_in_year 2018 ∧
    Reformationstag ∉ Bayern.holidays_in_year 2016 ∧
    Reformationstag ∉ Bayern.holidays_in_year 2018 ∧
    Reformationstag ∉ Berlin.holidays_in_year 2016 ∧
    Reformationstag ∉ Berlin.holidays_in_year 2018 ∧
    Reformationstag ∉ Hessen.holidays_in_year 2016 ∧
    Reformationstag ∉ Hessen.holidays_in_year 2018 := by
  decide

/-- C8: `holiday_from_date` returns `none` exactly when no applicable
holiday's derived date equals the queried date, returns `some k` exactly
when `k` matches and every kind listed before `k` does not (first match
wins), and `is_holiday` is true exactly when `holiday_from_date` returns a
value. -/
theorem holiday_from_date_first_match (r : GermanRegion) (d : CivilDate) :
    (r.is_holiday d = true ↔ ∃ k, r.holiday_from_date d = some k) ∧
    (r.holiday_from_date d = none ↔
      ∀ k ∈ r.holidays_in_year d.year,
        k.date d.year ≠ some (civilToDays d.year d.month d.day)) ∧
    (∀ k, r.holiday_from_date d = some k ↔
      k.date d.year = some (civilToDays d.year d.month d.day) ∧
      ∃ l1 l2, r.holidays_in_year d.year = l1 ++ k :: l2 ∧
        ∀ k' ∈ l1, k'.date d.year ≠ some (civilToDays d.year d.month d.day)) := by
  refine ⟨?_, ?_, ?_⟩
  · simp [GermanRegion.is_holiday, Option.isSome_iff_exists]
  · unfold GermanRegion.holiday_from_date
    simp
  · intro k
    unfold GermanRegion.holiday_from_date
    rw [List.find?_eq_some]
    simp

/-- C9: in 2019 Baden-Württemberg has exactly 12 holidays and Bayern
exactly 13, the extra one being Mariä Himmelfahrt. -/
theorem holiday_counts_2019 :
    (BadenWuerttemberg.holidays_in_year 2019).length = 12 ∧
    (Bayern.holidays_in_year 2019).length = 13 ∧
    MariaeHimmelfahrt ∈ Bayern.holidays_in_year 2019 ∧
    MariaeHimmelfahrt ∉ BadenWuerttemberg.holidays_in_year 2019 := by
  decide

/-- Every kind a region-specific table can list, over all regions and
years. -/
theorem region_specific_holidays_mem (r : GermanRegion) (y : Int) :
    ∀ k ∈ r.region_specific_holidays y,
      k ∈ [HeiligeDreiKoenige, Fronleichnam, MariaeHimmelfahrt,
           Allerheiligen, Frauentag, Reformationstag, BussUndBettag,
           Weltkindertag] := by
  intro k hk
  cases r <;> simp only [GermanRegion.region_specific_holidays] at hk <;>
    (try split at hk) <;> revert hk <;> revert k <;> decide

/-- C10: the eight catalogue kinds of `unobservedKinds` never appear in
any region's holiday list for any year, and `holiday_from_date` never
returns one of them. -/
theorem unobserved_kinds_never_listed (r : GermanRegion) (y : Int)
    (d : CivilDate) (k : GermanHoliday) (hk : k ∈ unobservedKinds) :
    k ∉ r.holidays_in_year y ∧ r.holiday_from_date d ≠ some k := by
  have main : ∀ y' : Int, k ∉ r.holidays_in_year y' := by
    intro y' hmem
    unfold GermanRegion.holidays_in_year at hmem
    split at hmem
    · simp at hmem
    · have hdisj : k ∈ BUNDESWEITE_FEIERTAGE ++ r.region_specific_holidays y' ∨
          k ∈ [Reformationstag] := by
        split at hmem
        · rw [List.mem_append] at hmem
          exact hmem
        · exact Or.inl hmem
      rcases hdisj with h | h
      · rw [List.mem_append] at h
        rcases h with h | h
        · exact (by decide :
            ∀ k' ∈ unobservedKinds, k' ∉ BUNDESWEITE_FEIERTAGE) k hk h
        · exact (by decide :
            ∀ k' ∈ unobservedKinds,
              k' ∉ [HeiligeDreiKoenige, Fronleichnam, MariaeHimmelfahrt,
                    Allerheiligen, Frauentag, Reformationstag, BussUndBettag,
                    Weltkindertag]) k hk
            (region_specific_holidays_mem r y' k h)
      · exact (by decide :
          ∀ k' ∈ unobservedKinds, k' ∉ [Reformationstag]) k hk h
  refine ⟨main y, fun hsome => ?_⟩
  have hmem : k ∈ r.holidays_in_year d.year := by
    unfold GermanRegion.holiday_from_date at hsome
    exact List.mem_of_find?_eq_some hsome
  exact main d.year hmem

/-- C10 witness: Silvester in Berlin, year 2000, date 2000-12-31. -/
theorem unobserved_kinds_never_listed_witness :
    Silvester ∈ unobservedKinds ∧
    (Silvester ∉ Berlin.holidays_in_year 2000 ∧
     Berlin.holiday_from_date ⟨2000, 12, 31⟩ ≠ some Silvester) :=
  ⟨by decide, unobserved_kinds_never_listed Berlin 2000 ⟨2000, 12, 31⟩ Silvester (by decide)⟩

end HolidayDe
